import Mathlib

/-!
Verification development for the Hello Fairy curtain-light integration
(`custom_components/hellofairy`): a shallow embedding of the protocol codec
(`hello_fairy.py` builders and checksum) and of the `Lamp` connection state
machine, together with theorems about the documented behaviour.

Modelling conventions:
* packets are `List Nat` of byte values; Python's `bytearray` only accepts
  values in 0..255, so theorems about packet contents carry the corresponding
  range hypotheses where the source inserts caller-supplied values unmasked;
* Python integers that can be negative (pixel indices, scene brightness) are
  modelled as `Int`; Python's `x & 0xFF` is `Int.emod x 256` and `x >> 8` is
  floor division `Int.fdiv x 256`, which agree with Python's semantics on
  negative numbers;
* the BLE transport is a black box, modelled as a scripted environment `Env`
  consumed tick-by-tick; every transport interaction is recorded in a trace.
-/

namespace HelloFairy

/-! ### Wire protocol constants (const.py) -/

def CMD_HEADER_A : Nat := 0xAA

def CMD_SET_LIGHT : Nat := 0x03

def CMD_DIY_CONTROL : Nat := 0xD0

def CMD_PIXEL_DATA : Nat := 0xDA

def LIGHT_MODE_SCENE : Nat := 2

def DIY_TYPE_STATIC : Nat := 0

def DIY_TYPE_SHOW_STATIC : Nat := 1

def DIY_TYPE_SAVE : Nat := 4

def PIXEL_CHUNK_SIZE : Nat := 15

def DEFAULT_PIXEL_COUNT : Nat := 256

def SCENE_BRIGHTNESS_MAX : Nat := 2550

/-! ### Protocol codec (hello_fairy.py, pure functions) -/

/-- `calculate_checksum(data)`: sum of all bytes mod 256. -/
def calculate_checksum (data : List Nat) : Nat := data.sum % 256

/-- `_build_diy_control_cmd(direction, speed, diy_type)` (0xD0 packet).
Source builds `[0xAA, 0xD0, direction, speed, 0, diy_type]` and appends the
checksum. Caller-supplied fields go in unmasked (Python raises for values
outside 0..255, hence the range hypotheses in theorems about byte contents). -/
def _build_diy_control_cmd (direction speed diy_type : Nat) : List Nat :=
  let cmd := [CMD_HEADER_A, CMD_DIY_CONTROL, direction, speed, 0, diy_type]
  cmd ++ [calculate_checksum cmd]

/-- Low byte of a pixel index: Python `pixel_index & 0xFF` (`%` on `Int` is
`Int.emod`, which matches Python's nonnegative remainder). -/
def pixelIndexLow (i : Int) : Nat := (i % 256).toNat

/-- High byte of a pixel index: Python `(pixel_index >> 8) & 0xFF`
(arithmetic shift = floor division by 256, `Int.fdiv`). -/
def pixelIndexHigh (i : Int) : Nat := (i.fdiv 256 % 256).toNat

/-- One 5-byte pixel record: index low, index high, R, G, B. -/
def pixelRecord (p : Int × Nat × Nat × Nat) : List Nat :=
  [pixelIndexLow p.1, pixelIndexHigh p.1, p.2.1, p.2.2.1, p.2.2.2]

/-- `_build_pixel_data_cmd(frame, pixels)` (0xDA packet): header, type, frame,
then a 5-byte record per pixel, then the checksum. -/
def _build_pixel_data_cmd (frame : Nat) (pixels : List (Int × Nat × Nat × Nat)) : List Nat :=
  let cmd := [CMD_HEADER_A, CMD_PIXEL_DATA, frame] ++ (pixels.map pixelRecord).flatten
  cmd ++ [calculate_checksum cmd]

/-- `_build_set_scene_cmd(scene_number, brightness)` (0x03 packet).
Source clamps `brightness = min(SCENE_BRIGHTNESS_MAX, max(0, int(brightness)))`
then emits `[0xAA, 0x03, 2, scene_number & 0xFF, (b >> 8) & 0xFF, b & 0xFF]`
plus checksum. -/
def _build_set_scene_cmd (scene_number : Nat) (brightness : Int) : List Nat :=
  let b := (min (SCENE_BRIGHTNESS_MAX : Int) (max 0 brightness)).toNat
  let cmd := [CMD_HEADER_A, CMD_SET_LIGHT, LIGHT_MODE_SCENE, scene_number % 256,
              b / 256 % 256, b % 256]
  cmd ++ [calculate_checksum cmd]

/-- Any list of the form `cmd ++ [calculate_checksum cmd]` satisfies the
checksum framing property: last byte = sum of the preceding bytes mod 256. -/
theorem checksum_concat (l : List Nat) :
    (l ++ [calculate_checksum l]).getLast? =
      some ((l ++ [calculate_checksum l]).dropLast.sum % 256) := by
  simp [calculate_checksum]

/-- C1: every packet produced by the three codec builders ends with a checksum
byte equal to the sum of all preceding bytes of the packet modulo 256
(for byte-range inputs, which is the domain on which Python's `bytearray`
accepts the caller-supplied fields). -/
theorem builders_checksum :
    (∀ direction speed diy_type : Nat,
      direction ≤ 255 → speed ≤ 255 → diy_type ≤ 255 →
      (_build_diy_control_cmd direction speed diy_type).getLast? =
        some ((_build_diy_control_cmd direction speed diy_type).dropLast.sum % 256)) ∧
    (∀ (frame : Nat) (pixels : List (Int × Nat × Nat × Nat)),
      frame ≤ 255 →
      (∀ p ∈ pixels, p.2.1 ≤ 255 ∧ p.2.2.1 ≤ 255 ∧ p.2.2.2 ≤ 255) →
      (_build_pixel_data_cmd frame pixels).getLast? =
        some ((_build_pixel_data_cmd frame pixels).dropLast.sum % 256)) ∧
    (∀ (scene_number : Nat) (brightness : Int),
      (_build_set_scene_cmd scene_number brightness).getLast? =
        some ((_build_set_scene_cmd scene_number brightness).dropLast.sum % 256)) := by
  refine ⟨fun d s t _ _ _ => ?_, fun frame pixels _ _ => ?_, fun sn b => ?_⟩
  · exact checksum_concat _
  · exact checksum_concat _
  · exact checksum_concat _

/-- Witness for C1 at concrete inputs: the show-static DIY packet, a two-pixel
data packet, and a scene packet. -/
theorem builders_checksum_witness :
    (_build_diy_control_cmd 0 100 1).getLast? =
      some ((_build_diy_control_cmd 0 100 1).dropLast.sum % 256) ∧
    (_build_pixel_data_cmd 1 [(0, 255, 0, 0), (1, 0, 255, 0)]).getLast? =
      some ((_build_pixel_data_cmd 1 [(0, 255, 0, 0), (1, 0, 255, 0)]).dropLast.sum % 256) ∧
    (_build_set_scene_cmd 5 2000).getLast? =
      some ((_build_set_scene_cmd 5 2000).dropLast.sum % 256) :=
  ⟨builders_checksum.1 0 100 1 (by decide) (by decide) (by decide),
   builders_checksum.2.1 1 [(0, 255, 0, 0), (1, 0, 255, 0)] (by decide) (by decide),
   builders_checksum.2.2 5 2000⟩

/-- Scene brightness scaling used by `set_scene`: the source computes
`int((b / 255.0) * SCENE_BRIGHTNESS_MAX)` with floating-point doubles. Since
`SCENE_BRIGHTNESS_MAX = 10 * 255` the exact real value is the integer `10 * b`;
at the inputs evaluated by the theorems below (0 and 255) the double
computation is exact (255/255.0 = 1.0 and 0.0 are exact), so the integer model
`b * SCENE_BRIGHTNESS_MAX / 255` is faithful there. -/
def sceneScale (b : Nat) : Nat := b * SCENE_BRIGHTNESS_MAX / 255

/-- C5: a public brightness of 255 scales to internal scene brightness 2550,
split big-endian into bytes 9 and 246 at packet positions 4 and 5 of the 0x03
packet; public brightness 0 gives internal 0 and bytes (0, 0); and
`_build_set_scene_cmd` clamps any supplied internal brightness into
[0, 2550] before the 16-bit split. -/
theorem scene_brightness_encoding :
    sceneScale 255 = 2550 ∧
    sceneScale 0 = 0 ∧
    (∀ sn : Nat,
      (_build_set_scene_cmd sn 2550)[4]? = some 9 ∧
      (_build_set_scene_cmd sn 2550)[5]? = some 246) ∧
    (∀ sn : Nat,
      (_build_set_scene_cmd sn 0)[4]? = some 0 ∧
      (_build_set_scene_cmd sn 0)[5]? = some 0) ∧
    (∀ (sn : Nat) (brightness : Int),
      (min (SCENE_BRIGHTNESS_MAX : Int) (max 0 brightness)).toNat ≤ 2550 ∧
      (_build_set_scene_cmd sn brightness)[4]? =
        some ((min (SCENE_BRIGHTNESS_MAX : Int) (max 0 brightness)).toNat / 256 % 256) ∧
      (_build_set_scene_cmd sn brightness)[5]? =
        some ((min (SCENE_BRIGHTNESS_MAX : Int) (max 0 brightness)).toNat % 256)) := by
  refine ⟨by decide, by decide, fun sn => ⟨?_, ?_⟩, fun sn => ⟨?_, ?_⟩, fun sn b => ⟨?_, ?_, ?_⟩⟩
  · simp [_build_set_scene_cmd, SCENE_BRIGHTNESS_MAX]
  · simp [_build_set_scene_cmd, SCENE_BRIGHTNESS_MAX]
  · simp [_build_set_scene_cmd, SCENE_BRIGHTNESS_MAX]
  · simp [_build_set_scene_cmd, SCENE_BRIGHTNESS_MAX]
  · have h1 : (min (SCENE_BRIGHTNESS_MAX : Int) (max 0 b)) ≤ (SCENE_BRIGHTNESS_MAX : Int) :=
      min_le_left _ _
    have h2 : (SCENE_BRIGHTNESS_MAX : Int) = 2550 := by decide
    omega
  · simp [_build_set_scene_cmd]
  · simp [_build_set_scene_cmd]

/-! ### Pixel-record decoding (the round-trip reading of C7) -/

/-- Re-derive pixel records from a run of payload bytes: each 5-byte group is
read as a little-endian 16-bit pixel index followed by R, G, B. -/
def decodeRecords : List Nat → List (Int × Nat × Nat × Nat)
  | b0 :: b1 :: r :: g :: b :: rest =>
      ((b0 : Int) + 256 * (b1 : Int), r, g, b) :: decodeRecords rest
  | _ => []

/-- A pixel index in 0..65535 survives the little-endian split. -/
theorem pixel_index_roundtrip (i : Int) (h0 : 0 ≤ i) (h1 : i ≤ 65535) :
    ((pixelIndexLow i : Nat) : Int) + 256 * ((pixelIndexHigh i : Nat) : Int) = i := by
  unfold pixelIndexLow pixelIndexHigh
  rw [Int.fdiv_eq_ediv _ (by norm_num)]
  omega

/-- Decoding the flattened records of a pixel list recovers the list. -/
theorem decodeRecords_flatten (pixels : List (Int × Nat × Nat × Nat))
    (h : ∀ p ∈ pixels, 0 ≤ p.1 ∧ p.1 ≤ 65535) :
    decodeRecords ((pixels.map pixelRecord).flatten) = pixels := by
  induction pixels with
  | nil => rfl
  | cons p rest ih =>
    have hp := h p (List.mem_cons_self p rest)
    have hrest : ∀ q ∈ rest, 0 ≤ q.1 ∧ q.1 ≤ 65535 :=
      fun q hq => h q (List.mem_cons_of_mem _ hq)
    obtain ⟨i, r, g, b⟩ := p
    show ((pixelIndexLow i : Int) + 256 * (pixelIndexHigh i : Int), r, g, b) ::
        decodeRecords ((List.map pixelRecord rest).flatten) = (i, r, g, b) :: rest
    rw [ih hrest, pixel_index_roundtrip i hp.1 hp.2]

/-- The flattened records occupy exactly 5 bytes per pixel. -/
theorem pixelRecords_length (pixels : List (Int × Nat × Nat × Nat)) :
    (pixels.map pixelRecord).flatten.length = 5 * pixels.length := by
  induction pixels with
  | nil => rfl
  | cons p rest ih =>
    have h5 : (pixelRecord p).length = 5 := by simp [pixelRecord]
    simp only [List.map_cons, List.flatten_cons, List.length_append, h5, ih, List.length_cons]
    omega

/-- C7: pixel-data encoding round-trips. For every list of pixel tuples with
index in 0..65535 and r, g, b in 0..255, building the frame-1 0xDA packet and
re-deriving the records from payload bytes 3..(3+5n) (each 5-byte group read
as little-endian 16-bit index then R, G, B) yields the original tuples in
order. -/
theorem pixel_data_roundtrip (pixels : List (Int × Nat × Nat × Nat))
    (h : ∀ p ∈ pixels,
      0 ≤ p.1 ∧ p.1 ≤ 65535 ∧ p.2.1 ≤ 255 ∧ p.2.2.1 ≤ 255 ∧ p.2.2.2 ≤ 255) :
    decodeRecords
      (((_build_pixel_data_cmd 1 pixels).drop 3).take (5 * pixels.length)) = pixels := by
  have hidx : ∀ p ∈ pixels, 0 ≤ p.1 ∧ p.1 ≤ 65535 :=
    fun p hp => ⟨(h p hp).1, (h p hp).2.1⟩
  have hdrop : (_build_pixel_data_cmd 1 pixels).drop 3 =
      (pixels.map pixelRecord).flatten ++ [calculate_checksum
        ([CMD_HEADER_A, CMD_PIXEL_DATA, 1] ++ (pixels.map pixelRecord).flatten)] := by
    simp [_build_pixel_data_cmd, CMD_HEADER_A, CMD_PIXEL_DATA]
  rw [hdrop, ← pixelRecords_length pixels, List.take_left]
  exact decodeRecords_flatten pixels hidx

/-- Witness for C7 at the spec's example `[(0,255,0,0), (1,0,255,0)]`. -/
theorem pixel_data_roundtrip_witness :
    decodeRecords
      (((_build_pixel_data_cmd 1 [(0, 255, 0, 0), (1, 0, 255, 0)]).drop 3).take
        (5 * ([(0, 255, 0, 0), (1, 0, 255, 0)] : List (Int × Nat × Nat × Nat)).length)) =
      [(0, 255, 0, 0), (1, 0, 255, 0)] :=
  pixel_data_roundtrip [(0, 255, 0, 0), (1, 0, 255, 0)] (by decide)

/-! ### Pixel chunking (`set_all_pixels_color` loop) -/

/-- Python `range(start, stop, step)` for a positive `step`. -/
def rangeStep (start stop step : Nat) : List Nat :=
  (List.range ((stop - start + step - 1) / step)).map (fun k => start + k * step)

/-- The per-chunk pixel lists built by `set_all_pixels_color`'s loop:
`for start_idx in range(0, pixel_count, PIXEL_CHUNK_SIZE)`, with
`end_idx = min(start_idx + PIXEL_CHUNK_SIZE, pixel_count)` and
`pixels = [(idx, r, g, b) for idx in range(start_idx, end_idx)]`. -/
def chunkPixels (pixel_count r g b : Nat) : List (List (Int × Nat × Nat × Nat)) :=
  (rangeStep 0 pixel_count PIXEL_CHUNK_SIZE).map (fun start_idx =>
    let end_idx := min (start_idx + PIXEL_CHUNK_SIZE) pixel_count
    (rangeStep start_idx end_idx 1).map (fun (idx : Nat) => (Int.ofNat idx, r, g, b)))

/-- The sequence of 0xDA packets a full `set_all_pixels_color` call builds and
passes to `send_cmd`, in order (all share frame number 1). -/
def set_all_pixels_packets (pixel_count r g b : Nat) : List (List Nat) :=
  (chunkPixels pixel_count r g b).map (_build_pixel_data_cmd 1)

set_option maxRecDepth 8192

/-- C6: for `pixel_count = 256` and chunk size 15, a full `set_all_pixels_color`
call emits exactly 18 pixel-data packets; each covers 15 contiguous pixel
indices except the last, which covers the remaining single index; and the
concatenation of the per-packet index lists is exactly `0, 1, ..., 255` — so
the ranges are disjoint, contiguous, in increasing order, and cover every
index exactly once. -/
theorem chunking_256 (r g b : Nat) :
    (set_all_pixels_packets 256 r g b).length = 18 ∧
    (chunkPixels 256 r g b).map List.length = List.replicate 17 15 ++ [1] ∧
    ((chunkPixels 256 r g b).map (List.map Prod.fst)).flatten =
      (List.range 256).map Int.ofNat := by
  refine ⟨?_, ?_, ?_⟩
  · simp [set_all_pixels_packets, chunkPixels, rangeStep, PIXEL_CHUNK_SIZE]
  · have h : (chunkPixels 256 r g b).map List.length =
        (rangeStep 0 256 PIXEL_CHUNK_SIZE).map
          (fun s => (rangeStep s (min (s + PIXEL_CHUNK_SIZE) 256) 1).length) := by
      simp only [chunkPixels, List.map_map]
      apply List.map_congr_left
      intro a _
      simp
    rw [h]
    decide
  · have h : ((chunkPixels 256 r g b).map (List.map Prod.fst)).flatten =
        ((rangeStep 0 256 PIXEL_CHUNK_SIZE).map
          (fun s => (rangeStep s (min (s + PIXEL_CHUNK_SIZE) 256) 1).map Int.ofNat)).flatten := by
      simp only [chunkPixels, List.map_map]
      congr 1
    rw [h]
    decide

/-! ### Connection state machine (`Lamp`)

The BLE transport (bleak / bleak_retry_connector) is a black box; it is
modelled as a scripted environment `Env`. Every transport interaction reads
the script at the lamp's tick counter `now` and advances it, and is recorded
in an action trace, so theorems can speak about what was (or was not) written
to the transport and in which connection state. -/

inductive Conn where
  | DISCONNECTED
  | UNPAIRED
  | PAIRING
  | PAIRED
deriving DecidableEq, Repr

/-- Outcome of one `write_gatt_char` call, as classified by `send_cmd`'s
exception handlers: success, `AssertionError` (connection lost),
`asyncio.TimeoutError`, a `BleakError` whose text contains
"Operation failed with ATT error", or any other `BleakError`. -/
inductive WriteRes where
  | ok
  | assertionError
  | timeoutError
  | bleakATT
  | bleakOther
deriving DecidableEq, Repr

/-- Observable transport interactions. A `write` records the connection state
held at the moment `write_gatt_char` is invoked. -/
inductive Action where
  | established (cid : Nat)
  | startNotify (cid : Nat)
  | stopNotify (cid : Nat)
  | closeClient (cid : Nat)
  | write (cid : Nat) (conn : Conn) (bytes : List Nat)
  | stateCb
deriving DecidableEq, Repr

/-- Scripted transport collaborator. `isConn` answers `client.is_connected`
queries; `establish` answers `establish_connection` (a fresh client id, or
`none` for a raised timeout/BleakError); `notifyOk` / `stopNotifyOk` script
`start_notify` / `stop_notify`; `writeRes` scripts `write_gatt_char`. -/
structure Env where
  isConn : Nat → Bool
  establish : Nat → Option Nat
  notifyOk : Nat → Bool
  stopNotifyOk : Nat → Bool
  writeRes : Nat → WriteRes

/-- The hidden state of a `Lamp`: `_client`, `_conn`, `_is_on`, `_rgb`,
`_brightness`, `_pixel_count`, plus the script clock and the action trace. -/
structure LampState where
  client : Option Nat
  conn : Conn
  is_on : Bool
  rgb : Nat × Nat × Nat
  brightness : Nat
  pixel_count : Nat
  now : Nat
  trace : List Action
deriving DecidableEq, Repr

/-- `Lamp.__init__`: disconnected, off, white, full brightness. -/
def Lamp.init (pixel_count : Nat) : LampState :=
  { client := none, conn := Conn.DISCONNECTED, is_on := false, rgb := (255, 255, 255),
    brightness := 255, pixel_count := pixel_count, now := 0, trace := [] }

/-- `Lamp.disconnect()`: no-op without a client; otherwise best-effort
`stop_notify` (only if the client reports itself connected) then
`client.disconnect()`, with all transport errors caught and swallowed; the
state is forced to `DISCONNECTED` regardless. If `stop_notify` raises, the
`client.disconnect()` call is skipped (both sit in the same `try`). The
source never clears `_client`, so the handle is retained. -/
def disconnect (env : Env) (s : LampState) : LampState :=
  match s.client with
  | none => s
  | some cid =>
      if env.isConn s.now then
        if env.stopNotifyOk (s.now + 1) then
          { s with
            now := s.now + 3
            trace := s.trace ++ [Action.stopNotify cid, Action.closeClient cid]
            conn := Conn.DISCONNECTED }
        else
          { s with
            now := s.now + 2
            trace := s.trace ++ [Action.stopNotify cid]
            conn := Conn.DISCONNECTED }
      else
        { s with
          now := s.now + 2
          trace := s.trace ++ [Action.closeClient cid]
          conn := Conn.DISCONNECTED }

/-- The `establish_connection` + `start_notify` sequence of `Lamp.connect()`:
on establish success the state becomes `UNPAIRED` with the fresh client; if
`start_notify` then succeeds the state becomes `PAIRED` and the state-changed
callbacks fire; a raise from either call is caught at the end of `connect`
and leaves the state as it was at the raise point. -/
def establish_and_pair (env : Env) (u : LampState) : LampState :=
  match env.establish u.now with
  | none => { u with now := u.now + 1 }
  | some cid =>
      if env.notifyOk (u.now + 1) then
        { u with
          now := u.now + 2
          client := some cid
          trace := u.trace ++ [Action.established cid, Action.startNotify cid, Action.stateCb]
          conn := Conn.PAIRED }
      else
        { u with
          now := u.now + 2
          client := some cid
          trace := u.trace ++ [Action.established cid, Action.startNotify cid]
          conn := Conn.UNPAIRED }

/-- The tail of `Lamp.connect()` from its `PAIRING`/`PAIRED` early-return
guard on: no-op when already `PAIRING`/`PAIRED`; otherwise tear down any
existing handle and run the establish/subscribe sequence. The debug-only
`read_services` block is modelled for the non-debug configuration. -/
def connect_locked (env : Env) (s : LampState) : LampState :=
  if s.conn = Conn.PAIRING ∨ s.conn = Conn.PAIRED then s
  else establish_and_pair env (if s.client.isSome then disconnect env s else s)

/-- `Lamp.connect()`: first tear down a held handle that reports itself
disconnected, then run the guarded connection sequence. -/
def connect (env : Env) (s : LampState) : LampState :=
  match s.client with
  | none => connect_locked env s
  | some _ =>
      if env.isConn s.now then connect_locked env { s with now := s.now + 1 }
      else connect_locked env (disconnect env { s with now := s.now + 1 })

/-- The `write_gatt_char` attempt inside `send_cmd`'s `try`, including the
source's exception handlers: `AssertionError` and ATT-error `BleakError`s
force `DISCONNECTED`; timeouts and other `BleakError`s leave the state; all
failures fall through to `return False`. The recorded `write` action carries
the connection state held at the moment of the call. -/
def attempt_write (env : Env) (s : LampState) (cid : Nat) (cmd : List Nat) :
    Bool × LampState :=
  match env.writeRes s.now with
  | WriteRes.ok =>
      (true, { s with now := s.now + 1, trace := s.trace ++ [Action.write cid s.conn cmd] })
  | WriteRes.assertionError =>
      (false, { s with
        now := s.now + 1
        trace := s.trace ++ [Action.write cid s.conn cmd]
        conn := Conn.DISCONNECTED })
  | WriteRes.timeoutError =>
      (false, { s with now := s.now + 1, trace := s.trace ++ [Action.write cid s.conn cmd] })
  | WriteRes.bleakATT =>
      (false, { s with
        now := s.now + 1
        trace := s.trace ++ [Action.write cid s.conn cmd]
        conn := Conn.DISCONNECTED })
  | WriteRes.bleakOther =>
      (false, { s with now := s.now + 1, trace := s.trace ++ [Action.write cid s.conn cmd] })

/-- The tail of `send_cmd`'s stale-state recovery: after the forced
disconnect+reconnect, the source re-checks only `self._client` and
`self._client.is_connected` (not the `PAIRED` state) before writing. -/
def send_after_reconnect (env : Env) (u : LampState) (cmd : List Nat) :
    Bool × LampState :=
  match u.client with
  | none => (false, u)
  | some cid2 =>
      if env.isConn u.now then attempt_write env { u with now := u.now + 1 } cid2 cmd
      else (false, { u with now := u.now + 1 })

/-- `send_cmd`'s body after its initial implicit `connect()`: require
`PAIRED` and a client, detect a stale handle (client says it is not
connected) and run one disconnect+reconnect cycle, then write. -/
def send_connected (env : Env) (t : LampState) (cmd : List Nat) : Bool × LampState :=
  if t.conn = Conn.PAIRED then
    match t.client with
    | none => (false, t)
    | some cid =>
        if env.isConn t.now then attempt_write env { t with now := t.now + 1 } cid cmd
        else send_after_reconnect env
          (connect env (disconnect env { t with now := t.now + 1 })) cmd
  else (false, t)

/-- `Lamp.send_cmd(cmd_bytes)`: implicit `connect()`, then `send_connected`. -/
def send_cmd (env : Env) (s : LampState) (cmd : List Nat) : Bool × LampState :=
  send_connected env (connect env s) cmd

/-- RGB scaling in `set_color`: the source computes `int(c * (b / 255.0))`
with doubles; for nonnegative integer inputs the exact real value is
`c * b / 255` rounded toward zero, i.e. Nat floor division. (Theorems below
never depend on the scaled value at inputs where the double rounding could
differ from the exact value.) -/
def scaled_component (c brightness : Nat) : Nat := c * brightness / 255

/-- `Lamp.set_all_pixels_color(r, g, b)`: one show-static DIY packet, then
the pixel chunks, every packet going through `send_cmd` with its result
ignored by the loop. -/
def set_all_pixels_color (env : Env) (s : LampState) (r g b : Nat) : LampState :=
  (chunkPixels (send_cmd env s (_build_diy_control_cmd 0 100 DIY_TYPE_SHOW_STATIC)).2.pixel_count
      r g b).foldl
    (fun s pixels => (send_cmd env s (_build_pixel_data_cmd 1 pixels)).2)
    (send_cmd env s (_build_diy_control_cmd 0 100 DIY_TYPE_SHOW_STATIC)).2

/-- `Lamp.set_color(red, green, blue, brightness)`: defaults brightness to
the stored one, stores the raw (unclamped) color and brightness, scales the
RGB components by `brightness / 255`, then sets all pixels. -/
def set_color (env : Env) (s : LampState) (red green blue : Nat)
    (brightness : Option Nat) : LampState :=
  set_all_pixels_color env
    { s with rgb := (red, green, blue), brightness := brightness.getD s.brightness }
    (scaled_component red (brightness.getD s.brightness))
    (scaled_component green (brightness.getD s.brightness))
    (scaled_component blue (brightness.getD s.brightness))

/-- `Lamp.turn_on()`: send show-static; only on success set `_is_on` and
re-apply the stored color and brightness via `set_color`. -/
def turn_on (env : Env) (s : LampState) : LampState :=
  if (send_cmd env s (_build_diy_control_cmd 0 100 DIY_TYPE_SHOW_STATIC)).1 then
    set_color env
      { (send_cmd env s (_build_diy_control_cmd 0 100 DIY_TYPE_SHOW_STATIC)).2 with
        is_on := true }
      s.rgb.1 s.rgb.2.1 s.rgb.2.2 (some s.brightness)
  else (send_cmd env s (_build_diy_control_cmd 0 100 DIY_TYPE_SHOW_STATIC)).2

/-- `Lamp.turn_off()`: set all pixels to black, then unconditionally clear
`_is_on` (regardless of whether any send succeeded). -/
def turn_off (env : Env) (s : LampState) : LampState :=
  { set_all_pixels_color env s 0 0 0 with is_on := false }

/-- `Lamp.set_pixel_color(pixel_index, r, g, b)`: indices at or above
`_pixel_count` are logged and skipped (no raise, no packet, no state
change); otherwise a single-pixel frame-1 packet is built and sent. -/
def set_pixel_color (env : Env) (s : LampState) (pixel_index : Int)
    (r g b : Nat) : LampState :=
  if (s.pixel_count : Int) ≤ pixel_index then s
  else (send_cmd env s (_build_pixel_data_cmd 1 [(pixel_index, r, g, b)])).2

/-- `Lamp.set_scene(scene_number, brightness)`: brightness `None` uses the
stored brightness scaled to the scene range; an explicit brightness is
clamped to 0..255 then scaled; on send success set `_is_on` and, when an
explicit brightness was given, store its clamped value. -/
def set_scene (env : Env) (s : LampState) (scene_number : Nat)
    (brightness : Option Nat) : LampState :=
  match brightness with
  | none =>
      if (send_cmd env s
          (_build_set_scene_cmd scene_number (sceneScale s.brightness : Nat))).1 then
        { (send_cmd env s
            (_build_set_scene_cmd scene_number (sceneScale s.brightness : Nat))).2 with
          is_on := true }
      else (send_cmd env s
        (_build_set_scene_cmd scene_number (sceneScale s.brightness : Nat))).2
  | some b0 =>
      if (send_cmd env s
          (_build_set_scene_cmd scene_number (sceneScale (min 255 b0) : Nat))).1 then
        { (send_cmd env s
            (_build_set_scene_cmd scene_number (sceneScale (min 255 b0) : Nat))).2 with
          is_on := true
          brightness := min 255 b0 }
      else (send_cmd env s
        (_build_set_scene_cmd scene_number (sceneScale (min 255 b0) : Nat))).2

/-! ### Preservation lemmas: the connection layer never touches the
optimistic state fields, and adds no write actions except through
`attempt_write`. -/

/-- `s'` keeps the optimistic state fields of `s`. -/
def sameFields (s s' : LampState) : Prop :=
  s'.is_on = s.is_on ∧ s'.rgb = s.rgb ∧ s'.brightness = s.brightness ∧
    s'.pixel_count = s.pixel_count

theorem sameFields_refl (s : LampState) : sameFields s s := ⟨rfl, rfl, rfl, rfl⟩

theorem sameFields_trans {a b c : LampState} (h1 : sameFields a b) (h2 : sameFields b c) :
    sameFields a c :=
  ⟨h2.1.trans h1.1, h2.2.1.trans h1.2.1, h2.2.2.1.trans h1.2.2.1, h2.2.2.2.trans h1.2.2.2⟩

/-- Every write action in `s'.trace` was already in `s.trace`. -/
def writesPreserved (s s' : LampState) : Prop :=
  ∀ cid c bytes, Action.write cid c bytes ∈ s'.trace → Action.write cid c bytes ∈ s.trace

theorem writesPreserved_refl (s : LampState) : writesPreserved s s := fun _ _ _ h => h

theorem writesPreserved_trans {a b c : LampState} (h1 : writesPreserved a b)
    (h2 : writesPreserved b c) : writesPreserved a c :=
  fun cid cn bytes h => h1 cid cn bytes (h2 cid cn bytes h)

theorem sameFields_tick (s : LampState) (n : Nat) : sameFields s { s with now := n } :=
  ⟨rfl, rfl, rfl, rfl⟩

theorem writesPreserved_tick (s : LampState) (n : Nat) :
    writesPreserved s { s with now := n } := fun _ _ _ h => h

theorem disconnect_sameFields (env : Env) (s : LampState) :
    sameFields s (disconnect env s) := by
  rcases hc : s.client with _ | cid
  · simp only [disconnect, hc]
    exact sameFields_refl s
  · simp only [disconnect, hc]
    split
    · split
      · exact ⟨rfl, rfl, rfl, rfl⟩
      · exact ⟨rfl, rfl, rfl, rfl⟩
    · exact ⟨rfl, rfl, rfl, rfl⟩

theorem disconnect_writesPreserved (env : Env) (s : LampState) :
    writesPreserved s (disconnect env s) := by
  rcases hc : s.client with _ | cid
  · simp only [disconnect, hc]
    exact writesPreserved_refl s
  · simp only [disconnect, hc]
    split
    · split
      · intro cid2 c bytes h
        rcases List.mem_append.mp h with h1 | h1
        · exact h1
        · simp at h1
      · intro cid2 c bytes h
        rcases List.mem_append.mp h with h1 | h1
        · exact h1
        · simp at h1
    · intro cid2 c bytes h
      rcases List.mem_append.mp h with h1 | h1
      · exact h1
      · simp at h1

theorem establish_and_pair_sameFields (env : Env) (u : LampState) :
    sameFields u (establish_and_pair env u) := by
  rcases he : env.establish u.now with _ | cid
  · simp only [establish_and_pair, he]
    exact sameFields_tick u _
  · simp only [establish_and_pair, he]
    split
    · exact ⟨rfl, rfl, rfl, rfl⟩
    · exact ⟨rfl, rfl, rfl, rfl⟩

theorem establish_and_pair_writesPreserved (env : Env) (u : LampState) :
    writesPreserved u (establish_and_pair env u) := by
  rcases he : env.establish u.now with _ | cid
  · simp only [establish_and_pair, he]
    exact writesPreserved_tick u _
  · simp only [establish_and_pair, he]
    split
    · intro cid2 c bytes h
      rcases List.mem_append.mp h with h1 | h1
      · exact h1
      · simp at h1
    · intro cid2 c bytes h
      rcases List.mem_append.mp h with h1 | h1
      · exact h1
      · simp at h1

theorem connect_locked_sameFields (env : Env) (s : LampState) :
    sameFields s (connect_locked env s) := by
  unfold connect_locked
  split
  · exact sameFields_refl s
  · refine sameFields_trans (b := if s.client.isSome then disconnect env s else s) ?_
      (establish_and_pair_sameFields env _)
    split
    · exact disconnect_sameFields env s
    · exact sameFields_refl s

theorem connect_locked_writesPreserved (env : Env) (s : LampState) :
    writesPreserved s (connect_locked env s) := by
  unfold connect_locked
  split
  · exact writesPreserved_refl s
  · refine writesPreserved_trans (b := if s.client.isSome then disconnect env s else s) ?_
      (establish_and_pair_writesPreserved env _)
    split
    · exact disconnect_writesPreserved env s
    · exact writesPreserved_refl s

theorem connect_sameFields (env : Env) (s : LampState) :
    sameFields s (connect env s) := by
  rcases hc : s.client with _ | cid
  · simp only [connect, hc]
    exact connect_locked_sameFields env s
  · simp only [connect, hc]
    split
    · refine sameFields_trans ?_ (connect_locked_sameFields env _)
      exact ⟨rfl, rfl, rfl, rfl⟩
    · refine sameFields_trans ?_
        (sameFields_trans (disconnect_sameFields env _) (connect_locked_sameFields env _))
      exact ⟨rfl, rfl, rfl, rfl⟩

theorem connect_writesPreserved (env : Env) (s : LampState) :
    writesPreserved s (connect env s) := by
  rcases hc : s.client with _ | cid
  · simp only [connect, hc]
    exact connect_locked_writesPreserved env s
  · simp only [connect, hc]
    split
    · refine writesPreserved_trans ?_ (connect_locked_writesPreserved env _)
      exact fun _ _ _ h => h
    · refine writesPreserved_trans ?_
        (writesPreserved_trans (disconnect_writesPreserved env _)
          (connect_locked_writesPreserved env _))
      exact fun _ _ _ h => h

theorem attempt_write_sameFields (env : Env) (s : LampState) (cid : Nat) (cmd : List Nat) :
    sameFields s (attempt_write env s cid cmd).2 := by
  rcases hw : env.writeRes s.now with _ | _ | _ | _ | _ <;>
    simp only [attempt_write, hw] <;> exact ⟨rfl, rfl, rfl, rfl⟩

theorem send_after_reconnect_sameFields (env : Env) (u : LampState) (cmd : List Nat) :
    sameFields u (send_after_reconnect env u cmd).2 := by
  rcases hc : u.client with _ | cid2
  · simp only [send_after_reconnect, hc]
    exact sameFields_refl u
  · simp only [send_after_reconnect, hc]
    split
    · refine sameFields_trans ?_ (attempt_write_sameFields env _ cid2 cmd)
      exact ⟨rfl, rfl, rfl, rfl⟩
    · exact ⟨rfl, rfl, rfl, rfl⟩

theorem send_connected_sameFields (env : Env) (t : LampState) (cmd : List Nat) :
    sameFields t (send_connected env t cmd).2 := by
  unfold send_connected
  split
  · rcases hc : t.client with _ | cid
    · simp only [hc]
      exact sameFields_refl t
    · simp only [hc]
      split
      · refine sameFields_trans ?_ (attempt_write_sameFields env _ cid cmd)
        exact ⟨rfl, rfl, rfl, rfl⟩
      · refine sameFields_trans ?_
          (sameFields_trans (disconnect_sameFields env _)
            (sameFields_trans (connect_sameFields env _)
              (send_after_reconnect_sameFields env _ cmd)))
        exact ⟨rfl, rfl, rfl, rfl⟩
  · exact sameFields_refl t

theorem send_cmd_sameFields (env : Env) (s : LampState) (cmd : List Nat) :
    sameFields s (send_cmd env s cmd).2 :=
  sameFields_trans (connect_sameFields env s) (send_connected_sameFields env _ cmd)

/-- The pixel-chunk loop of `set_all_pixels_color` preserves the optimistic
state fields. -/
theorem foldl_send_sameFields (env : Env) (l : List (List (Int × Nat × Nat × Nat)))
    (s : LampState) :
    sameFields s
      (l.foldl (fun s pixels => (send_cmd env s (_build_pixel_data_cmd 1 pixels)).2) s) := by
  induction l generalizing s with
  | nil => exact sameFields_refl s
  | cons c cs ih => exact sameFields_trans (send_cmd_sameFields env s _) (ih _)

theorem set_all_pixels_sameFields (env : Env) (s : LampState) (r g b : Nat) :
    sameFields s (set_all_pixels_color env s r g b) := by
  unfold set_all_pixels_color
  exact sameFields_trans (send_cmd_sameFields env s _) (foldl_send_sameFields env _ _)

/-! ### Concrete transport scripts and lamp states used by closed theorems -/

/-- A transport where everything succeeds (client id 1). -/
def envUp : Env :=
  { isConn := fun _ => true, establish := fun _ => some 1, notifyOk := fun _ => true,
    stopNotifyOk := fun _ => true, writeRes := fun _ => WriteRes.ok }

/-- A dead transport: never connected, every establish raises, every write
fails with a non-ATT `BleakError`. -/
def envDown : Env :=
  { isConn := fun _ => false, establish := fun _ => none, notifyOk := fun _ => false,
    stopNotifyOk := fun _ => true, writeRes := fun _ => WriteRes.bleakOther }

/-- A transport script for the stale-state recovery path: the held client
reports itself connected at tick 0 (during `connect`'s initial check) but not
at tick 1 (during `send_cmd`'s stale check); the reconnect establishes client
2 but its notification subscription raises, and the fresh client reports
itself connected at tick 11 (the re-check before the write). -/
def envStale : Env :=
  { isConn := fun t => t == 0 || t == 11, establish := fun _ => some 2,
    notifyOk := fun _ => false, stopNotifyOk := fun _ => true,
    writeRes := fun _ => WriteRes.ok }

/-- A 256-pixel lamp holding client 1 in the `PAIRED` state. -/
def lampPaired : LampState := { Lamp.init 256 with client := some 1, conn := Conn.PAIRED }

/-- A small (2-pixel) lamp that believes it is on, with no connection. -/
def lampOnDisc : LampState := { Lamp.init 2 with is_on := true }

/-! ### C8: idempotent connect while paired -/

/-- C8: calling `connect()` while the state is `PAIRED` and the held client
still reports itself connected performs only the `is_connected` query: no new
transport handle, no notification subscription, no observer callback; the
state stays `PAIRED` and the client handle is unchanged. -/
theorem connect_idempotent_when_paired (env : Env) (s : LampState) (cid : Nat)
    (hc : s.client = some cid) (hp : s.conn = Conn.PAIRED)
    (hl : env.isConn s.now = true) :
    connect env s = { s with now := s.now + 1 } ∧
    (connect env s).client = some cid ∧
    (connect env s).conn = Conn.PAIRED ∧
    (connect env s).trace = s.trace := by
  have h : connect env s = { s with now := s.now + 1 } := by
    simp [connect, connect_locked, hc, hl, hp]
  exact ⟨h, by rw [h]; exact hc, by rw [h]; exact hp, by rw [h]⟩

/-- Witness for C8: a paired 256-pixel lamp on a live transport. -/
theorem connect_idempotent_witness :
    connect envUp lampPaired = { lampPaired with now := 1 } :=
  (connect_idempotent_when_paired envUp lampPaired 1 rfl rfl rfl).1

/-! ### C9: out-of-range pixel index is skipped -/

/-- C9: `set_pixel_color` with `pixel_index >= pixel_count` returns before
building or sending anything: the whole lamp state (connection state, on/off,
color, brightness, trace) is exactly as before, and no exception escapes (the
skip is an early `return`). -/
theorem set_pixel_out_of_range_noop (env : Env) (s : LampState) (pixel_index : Int)
    (r g b : Nat) (h : (s.pixel_count : Int) ≤ pixel_index) :
    set_pixel_color env s pixel_index r g b = s := by
  simp only [set_pixel_color, if_pos h]

/-- Witness for C9: index 256 on a 256-pixel lamp. -/
theorem set_pixel_out_of_range_witness :
    set_pixel_color envUp (Lamp.init 256) 256 10 20 30 = Lamp.init 256 :=
  set_pixel_out_of_range_noop envUp (Lamp.init 256) 256 10 20 30 (by decide)

/-! ### C10: negative pixel indices pass the guard and are masked -/

/-- C10: the out-of-range guard fires only for `pixel_index >= pixel_count`,
so every negative index is still encoded and sent; the index goes to the wire
as `pixel_index & 0xFF` and `(pixel_index >> 8) & 0xFF` (payload positions 3
and 4 of the frame-1 packet). -/
theorem set_pixel_negative_index_sends (env : Env) (s : LampState) (pixel_index : Int)
    (r g b : Nat) (h : pixel_index < 0) :
    set_pixel_color env s pixel_index r g b =
      (send_cmd env s (_build_pixel_data_cmd 1 [(pixel_index, r, g, b)])).2 ∧
    (_build_pixel_data_cmd 1 [(pixel_index, r, g, b)])[3]? =
      some (pixel_index % 256).toNat ∧
    (_build_pixel_data_cmd 1 [(pixel_index, r, g, b)])[4]? =
      some (pixel_index.fdiv 256 % 256).toNat := by
  have hno : ¬ ((s.pixel_count : Int) ≤ pixel_index) := by
    have h0 : (0 : Int) ≤ (s.pixel_count : Int) := Int.ofNat_nonneg _
    omega
  exact ⟨by simp only [set_pixel_color, if_neg hno], rfl, rfl⟩

/-- Witness for C10: index -1 is written as bytes 0xFF, 0xFF. -/
theorem set_pixel_negative_index_witness :
    set_pixel_color envUp (Lamp.init 256) (-1) 5 6 7 =
      (send_cmd envUp (Lamp.init 256) (_build_pixel_data_cmd 1 [(-1, 5, 6, 7)])).2 ∧
    (_build_pixel_data_cmd 1 [((-1 : Int), 5, 6, 7)])[3]? = some 255 ∧
    (_build_pixel_data_cmd 1 [((-1 : Int), 5, 6, 7)])[4]? = some 255 := by
  have h := set_pixel_negative_index_sends envUp (Lamp.init 256) (-1) 5 6 7 (by decide)
  exact ⟨h.1, by decide, by decide⟩

/-! ### C2: writes and the `PAIRED` invariant -/

/-- C2 (amended): `send_cmd` first runs `connect()`, and if the state is not
`PAIRED` after that call it returns failure without writing any bytes. (The
original claim extended this to the stale-state reconnect cycle; the
counterexample below shows the re-check after that cycle tests only the
client's own `is_connected`, so a write can happen in state `UNPAIRED`.) -/
theorem send_cmd_fails_without_write_when_not_paired (env : Env) (s : LampState)
    (cmd : List Nat) (h : (connect env s).conn ≠ Conn.PAIRED) :
    send_cmd env s cmd = (false, connect env s) ∧
    (∀ cid c bytes, Action.write cid c bytes ∈ (send_cmd env s cmd).2.trace →
      Action.write cid c bytes ∈ s.trace) := by
  have he : send_cmd env s cmd = (false, connect env s) := by
    unfold send_cmd send_connected
    rw [if_neg h]
  refine ⟨he, ?_⟩
  rw [he]
  exact connect_writesPreserved env s

/-- Witness for the amended C2: a dead transport leaves the lamp unpaired and
`send_cmd` fails without writing. -/
theorem send_cmd_fails_without_write_witness :
    send_cmd envDown (Lamp.init 256) (_build_diy_control_cmd 0 100 1) =
      (false, connect envDown (Lamp.init 256)) :=
  (send_cmd_fails_without_write_when_not_paired envDown (Lamp.init 256)
    (_build_diy_control_cmd 0 100 1) (by decide)).1

/-- C2 counterexample: under `envStale` the stale-state disconnect+reconnect
cycle ends with a connected client but a failed notification subscription
(state `UNPAIRED`), and `send_cmd` nevertheless writes — the recorded write
action carries connection state `UNPAIRED`, and the call reports success. -/
theorem send_cmd_unpaired_write_counterexample :
    (send_cmd envStale lampPaired (_build_diy_control_cmd 0 100 1)).1 = true ∧
    Action.write 2 Conn.UNPAIRED (_build_diy_control_cmd 0 100 1) ∈
      (send_cmd envStale lampPaired (_build_diy_control_cmd 0 100 1)).2.trace ∧
    (send_cmd envStale lampPaired (_build_diy_control_cmd 0 100 1)).2.conn =
      Conn.UNPAIRED := by
  decide

/-! ### C3: `set_color` does not clamp brightness -/

/-- C3 counterexample: `set_color(100, 10, 128, brightness=300)` stores
brightness 300 — not a value clamped to 255. -/
theorem set_color_no_clamp_counterexample :
    (set_color envDown lampOnDisc 100 10 128 (some 300)).brightness = 300 ∧
    (300 : Nat) ≠ 255 := by
  decide

/-- C3 (amended): `set_color` performs no clamping at all: the supplied
brightness is stored in the brightness field unchanged and is used raw (as
`value / 255`) to scale the RGB components; the stored color is the raw RGB
triple. (Clamping to 0..255 happens only in `set_brightness` and `set_scene`
before the value reaches this path.) -/
theorem set_color_stores_raw_values (env : Env) (s : LampState)
    (red green blue bri : Nat) :
    (set_color env s red green blue (some bri)).brightness = bri ∧
    (set_color env s red green blue (some bri)).rgb = (red, green, blue) ∧
    set_color env s red green blue (some bri) =
      set_all_pixels_color env
        { s with rgb := (red, green, blue), brightness := bri }
        (scaled_component red bri) (scaled_component green bri)
        (scaled_component blue bri) := by
  have h := set_all_pixels_sameFields env
    { s with rgb := (red, green, blue), brightness := bri }
    (scaled_component red bri) (scaled_component green bri) (scaled_component blue bri)
  exact ⟨h.2.2.1, h.2.1, rfl⟩

/-! ### C4: which operations update the optimistic state on failure -/

/-- C4 (amended): when every underlying send fails, `turn_on` and `set_scene`
leave is_on, color and brightness unchanged; but `turn_off` clears `_is_on`
unconditionally, and `set_color` overwrites the color and brightness fields
unconditionally (before any send). -/
theorem optimistic_updates_on_success_only (env : Env) (s : LampState) (sn b : Nat)
    (h1 : (send_cmd env s (_build_diy_control_cmd 0 100 DIY_TYPE_SHOW_STATIC)).1 = false)
    (h2 : (send_cmd env s
      (_build_set_scene_cmd sn (sceneScale (min 255 b) : Nat))).1 = false)
    (h3 : (send_cmd env s
      (_build_set_scene_cmd sn (sceneScale s.brightness : Nat))).1 = false) :
    sameFields s (turn_on env s) ∧
    sameFields s (set_scene env s sn (some b)) ∧
    sameFields s (set_scene env s sn none) ∧
    (turn_off env s).is_on = false ∧
    (∀ red green blue bri : Nat,
      (set_color env s red green blue (some bri)).rgb = (red, green, blue) ∧
      (set_color env s red green blue (some bri)).brightness = bri) := by
  refine ⟨?_, ?_, ?_, rfl, ?_⟩
  · unfold turn_on
    simp only [h1, Bool.false_eq_true, if_false]
    exact send_cmd_sameFields env s _
  · unfold set_scene
    simp only [h2, Bool.false_eq_true, if_false]
    exact send_cmd_sameFields env s _
  · unfold set_scene
    simp only [h3, Bool.false_eq_true, if_false]
    exact send_cmd_sameFields env s _
  · intro red green blue bri
    have h := set_all_pixels_sameFields env
      { s with rgb := (red, green, blue), brightness := bri }
      (scaled_component red bri) (scaled_component green bri) (scaled_component blue bri)
    exact ⟨h.2.1, h.2.2.1⟩

/-- Witness for the amended C4 on a dead transport. -/
theorem optimistic_updates_witness :
    sameFields lampOnDisc (turn_on envDown lampOnDisc) ∧
    sameFields lampOnDisc (set_scene envDown lampOnDisc 5 (some 128)) ∧
    sameFields lampOnDisc (set_scene envDown lampOnDisc 5 none) ∧
    (turn_off envDown lampOnDisc).is_on = false :=
  have h := optimistic_updates_on_success_only envDown lampOnDisc 5 128
    (by decide) (by decide) (by decide)
  ⟨h.1, h.2.1, h.2.2.1, h.2.2.2.1⟩

/-- C4 counterexample: on a dead transport every underlying send of a
`turn_off` call fails, yet `turn_off` flips `_is_on` from true to false. -/
theorem turn_off_updates_despite_failure_counterexample :
    (send_cmd envDown lampOnDisc (_build_diy_control_cmd 0 100 1)).1 = false ∧
    (send_cmd envDown
        (send_cmd envDown lampOnDisc (_build_diy_control_cmd 0 100 1)).2
        (_build_pixel_data_cmd 1 [((0 : Int), 0, 0, 0), ((1 : Int), 0, 0, 0)])).1 = false ∧
    lampOnDisc.is_on = true ∧
    (turn_off envDown lampOnDisc).is_on = false := by
  decide

end HelloFairy
